import Mathlib

/-
Verification of the robotframework-pageobjects core (robotpageobjects/page.py
plus the behavior pinned by src/tests/test_unit.py).  Python values are embedded
as the inductive `PyVal`; Python exceptions raised by this library are embedded
as the inductive `RPOError` (mirroring robotpageobjects/exceptions.py, which the
spec lists in section 7); fallible operations return `Except`.
-/

/-- Error kinds of robotpageobjects/exceptions.py, as enumerated by section 7 of
the specification. -/
inductive RPOError where
  | NoBaseUrlException
  | NoUriAttributeException
  | AbsoluteUriAttributeException
  | AbsoluteUriTemplateException
  | InvalidUriTemplateVariable
  | DuplicateKeyException
  | KeywordReturnsNoneError
  deriving DecidableEq

/-- Python runtime values as far as the page-object layer inspects them:
`None`, booleans, integers, strings, lists, and page-object instances (carrying
the class name, which `run_keyword` reads via `ret.__class__.__name__`). -/
inductive PyVal where
  | none
  | bool (b : Bool)
  | int (n : Int)
  | str (s : String)
  | list (elems : List PyVal)
  | page (className : String)

/-- Embeds `_PageMeta._must_return` (page.py lines 43-51): invoke the wrapped
function; if the result `is None`, raise `KeywordReturnsNoneError`, otherwise
return the result unchanged.  The `ret is None` check is an identity test
against the Python `None` value only, so every other value (including falsy ones)
passes through. -/
def _must_return (f : List PyVal → PyVal) (args : List PyVal) : Except RPOError PyVal :=
  match f args with
  | PyVal.none => Except.error RPOError.KeywordReturnsNoneError
  | ret => Except.ok ret

/-- One entry of the class dictionary handed to `_PageMeta.__new__`: the
attribute name, the behavior of the member as a function of its arguments, whether
the member is a routine, and whether it carries the `@ not_keyword` exclusion
marker. -/
structure ClassDictEntry where
  name : String
  fn : List PyVal → PyVal
  isRoutine : Bool
  notKeyword : Bool

/-- Embeds the Python expression `name.startswith("_")`: true when the first character of
the string is an underscore. -/
def startsWithUnderscore (s : String) : Bool :=
  match s.data with
  | c :: _ => c = '_'
  | [] => false

/-- Modelled from the spec: `_Keywords.is_obj_keyword` lives in
robotpageobjects/base.py, which is absent from src/.  Per section 4.2 of the
spec, a member is a keyword candidate when it is callable, its name has no
leading underscore, and it has not been explicitly excluded. -/
def is_obj_keyword (e : ClassDictEntry) : Bool :=
  e.isRoutine && !(startsWithUnderscore e.name) && !e.notKeyword

/-- Embeds `_PageMeta.__new__` (page.py lines 101-110): every classdict member
classified as a keyword candidate is rebound to its `must_return`-wrapped
version before the class is created, so the wrapper is hit by every caller of
the method, not only by dispatch through the runner; other members are left
unwrapped. -/
def _PageMeta_new (classdict : List ClassDictEntry) :
    List (String × (List PyVal → Except RPOError PyVal)) :=
  classdict.map (fun e =>
    (e.name,
      if is_obj_keyword e then _must_return e.fn
      else fun args => Except.ok (e.fn args)))

/-- C2: every method classified as a keyword candidate at class-definition time
is installed in the class dictionary in its `must_return`-wrapped form (hence
the check fires for every caller), and the installed wrapper raises
`KeywordReturnsNoneError` exactly when the underlying method returns `None`,
returning the result of the method unchanged otherwise. -/
theorem pageMetaNew_wraps_every_keyword (classdict : List ClassDictEntry)
    (e : ClassDictEntry) (hmem : e ∈ classdict) (hkw : is_obj_keyword e = true) :
    (e.name, _must_return e.fn) ∈ _PageMeta_new classdict ∧
      ∀ args : List PyVal,
        (_must_return e.fn args = Except.error RPOError.KeywordReturnsNoneError ↔
          e.fn args = PyVal.none) ∧
        (e.fn args ≠ PyVal.none → _must_return e.fn args = Except.ok (e.fn args)) := by
  constructor
  · exact List.mem_map.mpr ⟨e, hmem, by rw [hkw]; simp⟩
  · intro args
    constructor
    · unfold _must_return
      cases hfa : e.fn args <;> simp [hfa]
    · intro hne
      unfold _must_return
      cases hfa : e.fn args
      case none => exact absurd hfa hne
      all_goals rfl

/-- Sample classdict entry used to witness the metaclass wrapping: a keyword
candidate whose behavior returns a page object. -/
def sampleEntry : ClassDictEntry :=
  ClassDictEntry.mk "open_page" (fun _ => PyVal.page ("Home Page")) true false

theorem pageMetaNew_wraps_every_keyword_witness :
    ((sampleEntry.name, _must_return sampleEntry.fn) ∈ _PageMeta_new [sampleEntry]) ∧
      _must_return sampleEntry.fn [] = Except.ok (PyVal.page ("Home Page")) :=
  ⟨(pageMetaNew_wraps_every_keyword [sampleEntry] sampleEntry (List.Mem.head _) rfl).1,
    ((pageMetaNew_wraps_every_keyword [sampleEntry] sampleEntry (List.Mem.head _) rfl).2 []).2
      (fun h => PyVal.noConfusion h)⟩

/-- C10: the must-return wrapper raises only when the result of the wrapped method is
exactly `None`; any other falsy result - empty string, empty list, 0, or False -
is returned unchanged without a `KeywordReturnsNoneError`. -/
theorem mustReturn_raises_only_on_none (f : List PyVal → PyVal) (args : List PyVal) :
    (∀ e : RPOError, _must_return f args = Except.error e → f args = PyVal.none) ∧
      ((f args = PyVal.str ("") ∨ f args = PyVal.list [] ∨
        f args = PyVal.int 0 ∨ f args = PyVal.bool false) →
        _must_return f args = Except.ok (f args)) := by
  constructor
  · intro e he
    unfold _must_return at he
    cases hfa : f args
    case none => rfl
    all_goals rw [hfa] at he; exact absurd he (by simp)
  · intro hfalsy
    unfold _must_return
    rcases hfalsy with h | h | h | h
    all_goals rw [h]

theorem mustReturn_raises_only_on_none_witness :
    _must_return (fun _ => PyVal.int 0) [] = Except.ok (PyVal.int 0) :=
  (mustReturn_raises_only_on_none (fun _ => PyVal.int 0) []).2
    (Or.inr (Or.inr (Or.inl rfl)))

/-
Selector merging.  The merging metaclass (`_ComponentsManagerMeta` in
robotpageobjects/base.py) is not under src/; the definitions below are modelled
from section 4.1 of the spec as constrained by the unit tests
`ResolveUrlTestCase.test_selectors_dup` and
`ResolveUrlTestCase.test_selectors_merge_override` (src/tests/test_unit.py),
which pin the observable behavior: the `_selectors` dictionaries contributed by
the ancestor classes are merged first and the same key contributed by two
unrelated ancestors raises `DuplicateKeyException` - even when the class itself overrides that key in
its own `_selectors` - while the entries of the class itself are then applied
on top of a conflict-free ancestor merge, overriding freely.
-/

/-- Modelled from the spec: merge the `_selectors` dictionary of one ancestor into
the accumulated mapping; a key already present from an earlier unrelated
ancestor is a `DuplicateKeyException`. -/
def addAncestorSelectors : List (String × String) → List (String × String) →
    Except RPOError (List (String × String))
  | acc, [] => Except.ok acc
  | acc, kv :: rest =>
    if (acc.map Prod.fst).contains kv.1 then Except.error RPOError.DuplicateKeyException
    else addAncestorSelectors (acc ++ [kv]) rest

/-- Modelled from the spec: fold `addAncestorSelectors` over the `_selectors`
dictionaries of all ancestor classes. -/
def mergeAncestorSelectors : List (String × String) → List (List (String × String)) →
    Except RPOError (List (String × String))
  | acc, [] => Except.ok acc
  | acc, d :: ds =>
    match addAncestorSelectors acc d with
    | Except.error e => Except.error e
    | Except.ok acc2 => mergeAncestorSelectors acc2 ds

/-- Modelled from the spec: apply the own `_selectors` of the class on top of the
merged ancestor mapping; a deliberate override from the subclass replaces the
inherited entry. -/
def applyOwnSelectors (acc : List (String × String)) (own : List (String × String)) :
    List (String × String) :=
  own.foldl (fun a kv => a.filter (fun p => !(p.1 == kv.1)) ++ [kv]) acc

/-- Modelled from the spec: the full selector merge performed when a page-object
class is instantiated: ancestor contributions first (duplicates across
unrelated ancestors are fatal), then the own entries of the class. -/
def mergeSelectors (ancestors : List (List (String × String)))
    (own : List (String × String)) : Except RPOError (List (String × String)) :=
  match mergeAncestorSelectors [] ancestors with
  | Except.error e => Except.error e
  | Except.ok acc => Except.ok (applyOwnSelectors acc own)

/-- C1 counterexample: the configuration of
`ResolveUrlTestCase.test_selectors_dup` - two unrelated bases both defining key
"foo" and a subclass overriding it - does not succeed: the merge raises
`DuplicateKeyException`, so the value given by the subclass never takes precedence. -/
theorem mergeSelectors_dup_override_counterexample :
    mergeSelectors [[("foo", "foo")], [("foo", "bar")]] [("foo", "baz")] =
      Except.error RPOError.DuplicateKeyException := rfl

/-- C1 (amended): when two unrelated ancestor classes define different values
for the same selector key, instantiation raises `DuplicateKeyException` even if
the subclass deliberately overrides that key in its own `_selectors`. -/
theorem mergeSelectors_dup_raises_despite_override (k v1 v2 : String)
    (own : List (String × String)) (_hne : v1 ≠ v2) :
    mergeSelectors [[(k, v1)], [(k, v2)]] own =
      Except.error RPOError.DuplicateKeyException := by
  have h1 : addAncestorSelectors [] [(k, v1)] = Except.ok [(k, v1)] := by
    simp [addAncestorSelectors]
  have h2 : addAncestorSelectors [(k, v1)] [(k, v2)] =
      Except.error RPOError.DuplicateKeyException := by
    simp [addAncestorSelectors]
  simp [mergeSelectors, mergeAncestorSelectors, h1, h2]

theorem mergeSelectors_dup_raises_despite_override_witness :
    mergeSelectors [[("foo", "red")], [("foo", "blue")]] [("foo", "green")] =
      Except.error RPOError.DuplicateKeyException :=
  mergeSelectors_dup_raises_despite_override "foo" "red" "blue" [("foo", "green")]
    (by decide)

/-- Companion check mirroring `test_selectors_merge_override`: with no conflict
between the two bases, the merge succeeds and the value the subclass gives for
"baz" takes precedence over the inherited one. -/
theorem mergeSelectors_merge_override_example :
    mergeSelectors [[("foo", "foo")], [("bar", "bar"), ("baz", "cat")]]
        [("baz", "baz")] =
      Except.ok [("foo", "foo"), ("bar", "bar"), ("baz", "baz")] := rfl

/-
URL resolution.  `resolve_url` is implemented in robotpageobjects/base.py
(`_BaseActions`), which is not under src/; the definitions below are modelled
from section 4.3 of the spec, whose rules agree with every case of
`ResolveUrlTestCase` in src/tests/test_unit.py.
-/

/-- An opening curly brace character. -/
def lbrace : Char := Char.ofNat 123

/-- A closing curly brace character. -/
def rbrace : Char := Char.ofNat 125

/-- Helper for `isAbsoluteUrl`: after the first scheme character, accept zero or
more further alphanumeric scheme characters followed by "://". -/
def isSchemeTail : List Char → Bool
  | ':' :: '/' :: '/' :: _ => true
  | c :: rest => c.isAlphanum && isSchemeTail rest
  | [] => false

/-- Modelled from the spec: absoluteness of a URI "is determined by presence of
a URL scheme (e.g., \"http://\", \"file://\")" (section 4.3): the string starts
with an alphabetic character, followed by alphanumeric scheme characters and
"://". -/
def isAbsoluteUrl (s : String) : Bool :=
  match s.data with
  | c :: rest => c.isAlpha && isSchemeTail rest
  | [] => false

/-- Scanner collecting the placeholder names of a URI template: characters
between `lbrace` and `rbrace`; the second argument holds the characters of the
placeholder currently being read (in reverse), if any. -/
def placeholderScan : List Char → Option (List Char) → List String
  | [], _ => []
  | c :: rest, Option.none =>
    if c = lbrace then placeholderScan rest (Option.some [])
    else placeholderScan rest Option.none
  | c :: rest, Option.some acc =>
    if c = rbrace then acc.reverse.asString :: placeholderScan rest Option.none
    else placeholderScan rest (Option.some (c :: acc))

/-- Modelled from the spec: the named placeholders declared by a `uri_template`
string (section 3: "must exactly match the placeholders declared in the
`uri_template` string"). -/
def placeholderNames (t : String) : List String :=
  placeholderScan t.data Option.none

/-- Looks a template variable up by name, defaulting to the empty string (the
default is never reached on the success path because the key sets are checked
for exact agreement first). -/
def lookupVar (vars : List (String × String)) (k : String) : String :=
  match vars.find? (fun p => p.1 == k) with
  | Option.some p => p.2
  | Option.none => ""

/-- Scanner substituting template variables into a URI template; placeholders
(between braces) are replaced by the value of the corresponding variable, everything
else is copied verbatim. -/
def renderScan : List Char → Option (List Char) → List (String × String) → List Char
  | [], Option.none, _ => []
  | [], Option.some acc, _ => lbrace :: acc.reverse
  | c :: rest, Option.none, vars =>
    if c = lbrace then renderScan rest (Option.some []) vars
    else c :: renderScan rest Option.none vars
  | c :: rest, Option.some acc, vars =>
    if c = rbrace then
      (lookupVar vars acc.reverse.asString).data ++ renderScan rest Option.none vars
    else renderScan rest (Option.some (c :: acc)) vars

/-- Modelled from the spec: substitution of `template_vars` into the named
placeholders of a `uri_template` (section 4.3 rule 4). -/
def renderTemplate (t : String) (vars : List (String × String)) : String :=
  (renderScan t.data Option.none vars).asString

/-- Exact agreement of two key sets, ignoring order and multiplicity: every
element of each list occurs in the other. -/
def sameKeySet (a b : List String) : Bool :=
  a.all (fun x => b.contains x) && b.all (fun x => a.contains x)

/-- The configuration fields of a page object consulted by `resolve_url`: the
environment-provided base URL and the optional `uri` / `uri_template` class
attributes. -/
structure PageConfig where
  baseurl : Option String
  uri : Option String
  uri_template : Option String

/-- Modelled from the spec: `resolve_url` is implemented in
robotpageobjects/base.py (`_BaseActions`), which is not under src/.  The rules
follow section 4.3 of the spec in priority order, matching every case of
`ResolveUrlTestCase` (src/tests/test_unit.py): no base URL is always
`NoBaseUrlException`; with a base URL but neither `uri` nor `uri_template`,
`NoUriAttributeException`; an absolute `uri_template` is
`AbsoluteUriTemplateException`; a declared `uri_template` whose placeholders do
not exactly match the passed `template_vars` keys is
`InvalidUriTemplateVariable`, otherwise the substituted template is appended to
the base URL; an absolute `uri` is `AbsoluteUriAttributeException`, otherwise
the relative `uri` is appended to the base URL. -/
def resolve_url (cfg : PageConfig) (template_vars : Option (List (String × String))) :
    Except RPOError String :=
  match cfg.baseurl with
  | Option.none => Except.error RPOError.NoBaseUrlException
  | Option.some base =>
    match cfg.uri_template, cfg.uri with
    | Option.none, Option.none => Except.error RPOError.NoUriAttributeException
    | Option.some t, _ =>
      if isAbsoluteUrl t then Except.error RPOError.AbsoluteUriTemplateException
      else
        let vars := template_vars.getD []
        if sameKeySet (placeholderNames t) (vars.map Prod.fst) then
          Except.ok (base ++ renderTemplate t vars)
        else Except.error RPOError.InvalidUriTemplateVariable
    | Option.none, Option.some u =>
      if isAbsoluteUrl u then Except.error RPOError.AbsoluteUriAttributeException
      else Except.ok (base ++ u)

/-- C4: with no base URL configured in the environment, `resolve_url` fails with
`NoBaseUrlException`, regardless of the `template_vars` passed and regardless of
whether a `uri` (or `uri_template`) attribute is declared. -/
theorem resolve_url_no_baseurl (cfg : PageConfig)
    (template_vars : Option (List (String × String)))
    (hbase : cfg.baseurl = Option.none) :
    resolve_url cfg template_vars = Except.error RPOError.NoBaseUrlException := by
  unfold resolve_url
  rw [hbase]

theorem resolve_url_no_baseurl_witness :
    resolve_url (PageConfig.mk Option.none (Option.some "/foo") Option.none)
        (Option.some [("pid", "123")]) =
      Except.error RPOError.NoBaseUrlException :=
  resolve_url_no_baseurl
    (PageConfig.mk Option.none (Option.some "/foo") Option.none)
    (Option.some [("pid", "123")]) rfl

/-- C5: with base URL "http://www.ncbi.nlm.nih.gov", `uri_template`
"/pubmed/{pid}" and `template_vars` mapping "pid" to "123", `resolve_url`
returns exactly the base URL concatenated with the template after placeholder
substitution: "http://www.ncbi.nlm.nih.gov/pubmed/123". -/
theorem resolve_url_template_substitution :
    resolve_url
        (PageConfig.mk (Option.some "http://www.ncbi.nlm.nih.gov") Option.none
          (Option.some "/pubmed/{pid}"))
        (Option.some [("pid", "123")]) =
      Except.ok "http://www.ncbi.nlm.nih.gov/pubmed/123" := rfl

/-- C6 counterexample: a page object declaring `uri_template` but with no base
URL configured, called with a `template_vars` mapping whose key set does not
match the placeholders of the template, fails with `NoBaseUrlException` - not with
`InvalidUriTemplateVariable` as the claim states for every such page object. -/
theorem resolve_url_bad_vars_counterexample :
    resolve_url
        (PageConfig.mk Option.none Option.none (Option.some "/pubmed/{pid}"))
        (Option.some [("foo", "bar")]) =
      Except.error RPOError.NoBaseUrlException ∧
    resolve_url
        (PageConfig.mk Option.none Option.none (Option.some "/pubmed/{pid}"))
        (Option.some [("foo", "bar")]) ≠
      Except.error RPOError.InvalidUriTemplateVariable :=
  ⟨rfl, fun h => by
    rw [(rfl :
      resolve_url
        (PageConfig.mk Option.none Option.none (Option.some "/pubmed/{pid}"))
        (Option.some [("foo", "bar")]) =
      Except.error RPOError.NoBaseUrlException)] at h
    exact absurd (Except.error.inj h) (by decide)⟩

/-- C6 (amended): for every page object with a base URL configured and a
relative (non-absolute) `uri_template`, and every `template_vars` argument whose
key set is not exactly the set of placeholders named in the template (any extra
key or any missing key), `resolve_url` fails with `InvalidUriTemplateVariable`. -/
theorem resolve_url_bad_template_vars (base t : String) (uri0 : Option String)
    (template_vars : Option (List (String × String)))
    (habs : isAbsoluteUrl t = false)
    (hmismatch :
      sameKeySet (placeholderNames t) ((template_vars.getD []).map Prod.fst) = false) :
    resolve_url (PageConfig.mk (Option.some base) uri0 (Option.some t)) template_vars =
      Except.error RPOError.InvalidUriTemplateVariable := by
  unfold resolve_url
  simp [habs, hmismatch]

theorem resolve_url_bad_template_vars_witness :
    resolve_url
        (PageConfig.mk (Option.some "http://www.ncbi.nlm.nih.gov") Option.none
          (Option.some "/pubmed/{pid}"))
        (Option.some [("foo", "bar")]) =
      Except.error RPOError.InvalidUriTemplateVariable :=
  resolve_url_bad_template_vars "http://www.ncbi.nlm.nih.gov" "/pubmed/{pid}"
    Option.none (Option.some [("foo", "bar")]) (by decide) (by decide)

/-- C7: for every page object whose `uri_template` is an absolute URL (has a URL
scheme) and whose base URL is configured, `resolve_url` fails with
`AbsoluteUriTemplateException`, whatever `template_vars` are supplied - in
particular even matching ones. -/
theorem resolve_url_absolute_template (base t : String) (uri0 : Option String)
    (template_vars : Option (List (String × String)))
    (habs : isAbsoluteUrl t = true) :
    resolve_url (PageConfig.mk (Option.some base) uri0 (Option.some t)) template_vars =
      Except.error RPOError.AbsoluteUriTemplateException := by
  unfold resolve_url
  simp [habs]

theorem resolve_url_absolute_template_witness :
    resolve_url
        (PageConfig.mk (Option.some "file:///home/user/www") Option.none
          (Option.some "http://www.ncbi.nlm.nih.gov/pubmed/{pid}"))
        (Option.some [("pid", "123")]) =
      Except.error RPOError.AbsoluteUriTemplateException :=
  resolve_url_absolute_template "file:///home/user/www"
    "http://www.ncbi.nlm.nih.gov/pubmed/{pid}" Option.none
    (Option.some [("pid", "123")]) (by decide)

/-- Companion checks mirroring the remaining `ResolveUrlTestCase` cases: a base
URL with a relative `uri` concatenates, an absolute `uri` raises
`AbsoluteUriAttributeException`, and a base URL with neither attribute raises
`NoUriAttributeException`. -/
theorem resolve_url_remaining_test_cases :
    resolve_url (PageConfig.mk (Option.some "file:///home/user/www")
        (Option.some "/foo") Option.none) Option.none =
      Except.ok "file:///home/user/www/foo" ∧
    resolve_url (PageConfig.mk (Option.some "file:///home/user/www")
        (Option.some "http://www.example.com") Option.none) Option.none =
      Except.error RPOError.AbsoluteUriAttributeException ∧
    resolve_url (PageConfig.mk (Option.some "file:///home/user/www")
        Option.none Option.none) Option.none =
      Except.error RPOError.NoUriAttributeException :=
  ⟨rfl, rfl, rfl⟩

/-
Keyword aliasing and classification.  `_Keywords.get_robot_aliases` and
`_Keywords.get_funcname_from_robot_alias` live in robotpageobjects/base.py,
absent from src/; they are modelled from section 4.2 of the spec.  the helpers of `Page`: `_titleize` / `_underscore` and the hooks `get_keyword_names` /
`run_keyword` are embedded from page.py.
-/

/-- Embeds `Page._titleize` (page.py): `re.sub(r"(\w)([A-Z])", r"\1 \2", str)`,
inserting a space between a word character and an upper-case letter, with
the non-overlapping left-to-right scan of re.sub. -/
def titleizeChars : List Char → List Char
  | a :: b :: rest =>
    if (a.isAlphanum || a = '_') && b.isUpper then a :: ' ' :: b :: titleizeChars rest
    else a :: titleizeChars (b :: rest)
  | l => l

/-- Embeds `Page._titleize` on strings. -/
def _titleize (s : String) : String :=
  (titleizeChars s.data).asString

/-- Embeds `Page._underscore` (page.py): `re.sub(r"\s+", "_", str)`, replacing
every maximal run of whitespace with a single underscore; the Boolean argument
records whether the scanner is inside a whitespace run. -/
def underscoreChars : List Char → Bool → List Char
  | [], _ => []
  | c :: rest, inRun =>
    if c.isWhitespace then
      if inRun then underscoreChars rest true
      else '_' :: underscoreChars rest true
    else c :: underscoreChars rest false

/-- Embeds `Page._underscore` on strings. -/
def _underscore (s : String) : String :=
  (underscoreChars s.data false).asString

/-- Modelled from the spec: `_Keywords.get_robot_aliases` is defined in
robotpageobjects/base.py, which is not under src/.  Per section 4.2 each
eligible method name yields alias strings combining the method name with the
underscored display name of the page object; modelled as the single alias
"<method>_<Page_Name>". -/
def get_robot_aliases (name pname : String) : List String :=
  [name ++ "_" ++ pname]

/-- Removes the leading character sequence `p` from `l`, or fails; applied to
reversed strings it strips a suffix. -/
def chopFront : List Char → List Char → Option (List Char)
  | l, [] => Option.some l
  | [], _ :: _ => Option.none
  | c :: l, d :: p => if c = d then chopFront l p else Option.none

/-- Modelled from the spec: `_Keywords.get_funcname_from_robot_alias` is
defined in robotpageobjects/base.py, which is not under src/.  Per section 4.2
the translation must recover the original method name from an alias and the
underscored display name: it strips the trailing "_<Page_Name>" when present
and returns the alias unchanged otherwise. -/
def get_funcname_from_robot_alias (kwAlias pname : String) : String :=
  match chopFront kwAlias.data.reverse (('_' :: pname.data).reverse) with
  | Option.some rest => rest.reverse.asString
  | Option.none => kwAlias

theorem chopFront_append (p l : List Char) : chopFront (p ++ l) p = Option.some l := by
  induction p with
  | nil => simp [chopFront]
  | cons c p ih => simp [chopFront, ih]

theorem string_data_append (a b : String) : (a ++ b).data = a.data ++ b.data := rfl

/-- C9: alias computation is invertible: for every method name and underscored
page-object display name, translating any alias produced by
`get_robot_aliases` back through `get_funcname_from_robot_alias` recovers the
original method name, so dispatch by alias resolves to the originating
method. -/
theorem alias_roundtrip (name pname kwAlias : String)
    (hmem : kwAlias ∈ get_robot_aliases name pname) :
    get_funcname_from_robot_alias kwAlias pname = name := by
  have halias : kwAlias = name ++ "_" ++ pname := List.mem_singleton.mp hmem
  subst halias
  unfold get_funcname_from_robot_alias
  have hdata : (name ++ "_" ++ pname).data = name.data ++ ('_' :: pname.data) := by
    rw [string_data_append, string_data_append, List.append_assoc]
    rfl
  rw [hdata, List.reverse_append, chopFront_append]
  show (name.data.reverse.reverse).asString = name
  rw [List.reverse_reverse]
  rfl

theorem alias_roundtrip_witness :
    get_funcname_from_robot_alias "search_Pubmed_Page" "Pubmed_Page" = "search" :=
  alias_roundtrip "search" "Pubmed_Page" "search_Pubmed_Page" (by decide)

theorem string_append_cancel_right (a b c : String) (h : a ++ c = b ++ c) : a = b := by
  have hd : a.data ++ c.data = b.data ++ c.data := by
    rw [← string_data_append, ← string_data_append, h]
  have hab : a.data = b.data := List.append_cancel_right hd
  cases a
  cases b
  exact congrArg String.mk hab

/-- One attribute name produced by `dir(self)` together with what
`get_keyword_names` inspects about it: whether `getattr` yields a bound method,
whether the `@ not_keyword` exclusion marker is set, and the identity of the
underlying unbound function (`obj.__func__`), abstracted as a numeric id so the
`in`-checks against the Selenium2Library class dictionaries are identity tests. -/
structure PageMember where
  name : String
  isBoundMethod : Bool
  excluded : Bool
  funcId : Nat

/-- The parts of the Selenium2Library class consulted by `get_keyword_names`:
the function identities in its own `__dict__` and, per direct base class, the
function identities in the `__dict__` of that base (ancestors further up are not
consulted). -/
structure S2LModel where
  ownFuncs : List Nat
  baseFuncs : List (List Nat)

/-- A page object as seen by the RF dynamic API hooks: its display name and the
members enumerated by `dir(self)`. -/
structure PageObjectModel where
  name : String
  members : List PageMember

/-- Embeds the Selenium2Library membership test of `get_keyword_names`
(page.py lines 174-184): the function is in `Selenium2Library.__dict__.values()`
or in the `__dict__` of one of `Selenium2Library.__bases__` - one level of
bases only. -/
def in_s2l_base (s2l : S2LModel) (fid : Nat) : Bool :=
  s2l.ownFuncs.contains fid || s2l.baseFuncs.any (fun b => b.contains fid)

/-- Modelled from the spec: `_Keywords.is_obj_keyword_by_name` is defined in
robotpageobjects/base.py, which is not under src/.  Per section 4.2 it holds of
a bound method whose name has no leading underscore and which is not explicitly
excluded. -/
def is_obj_keyword_by_name (m : PageMember) : Bool :=
  m.isBoundMethod && !(startsWithUnderscore m.name) && !m.excluded

/-- Embeds the per-name body of the `get_keyword_names` loop (page.py lines
170-191): the `is_obj_keyword_by_name` gate, the `continue` for
Selenium2Library members, and the final `inspect.ismethod`/underscore/exclusion
check guarding the alias emission. -/
def keywordLoopBody (s2l : S2LModel) (m : PageMember) : Bool :=
  if is_obj_keyword_by_name m then
    if in_s2l_base s2l m.funcId then false
    else m.isBoundMethod && !(startsWithUnderscore m.name) && !m.excluded
  else false

/-- Embeds `Page.get_keyword_names` (page.py lines 152-193): every member
passing the loop body contributes its Robot aliases, computed against the
underscored display name. -/
def get_keyword_names (s2l : S2LModel) (po : PageObjectModel) : List String :=
  (po.members.filter (fun m => keywordLoopBody s2l m)).flatMap
    (fun m => get_robot_aliases m.name (_underscore po.name))

/-- C8: `get_keyword_names` exposes an attribute name (through its alias) if
and only if some member of that name is a bound method, its name has no leading
underscore, it is not explicitly excluded, and its underlying function is not
identical to a function of the own class dictionary of Selenium2Library nor of
the class dictionaries of the direct base classes of Selenium2Library - the only
Selenium2Library dictionaries the check consults. -/
theorem get_keyword_names_classification (s2l : S2LModel) (po : PageObjectModel)
    (n : String) :
    ((n ++ "_" ++ _underscore po.name) ∈ get_keyword_names s2l po) ↔
      (∃ m, m ∈ po.members ∧ m.name = n ∧ m.isBoundMethod = true ∧
        startsWithUnderscore m.name = false ∧ m.excluded = false ∧
        s2l.ownFuncs.contains m.funcId = false ∧
        s2l.baseFuncs.any (fun b => b.contains m.funcId) = false) := by
  unfold get_keyword_names get_robot_aliases
  rw [List.mem_flatMap]
  constructor
  · rintro ⟨m, hm, halias⟩
    rw [List.mem_filter] at hm
    have hname : m.name = n := by
      have heq : n ++ "_" ++ _underscore po.name = m.name ++ "_" ++ _underscore po.name :=
        List.mem_singleton.mp halias
      have h1 : n ++ "_" = m.name ++ "_" := string_append_cancel_right _ _ _ heq
      exact (string_append_cancel_right _ _ _ h1).symm
    refine ⟨m, hm.1, hname, ?_⟩
    have hb := hm.2
    unfold keywordLoopBody is_obj_keyword_by_name in_s2l_base at hb
    by_cases hkw : m.isBoundMethod && !(startsWithUnderscore m.name) && !m.excluded
    · rw [if_pos hkw] at hb
      by_cases hs2l : s2l.ownFuncs.contains m.funcId || s2l.baseFuncs.any (fun b => b.contains m.funcId)
      · rw [if_pos hs2l] at hb
        exact absurd hb (by simp)
      · simp only [Bool.and_eq_true, Bool.not_eq_true'] at hkw
        simp only [Bool.or_eq_true, not_or, Bool.not_eq_true] at hs2l
        exact ⟨hkw.1.1, hkw.1.2, hkw.2, hs2l.1, hs2l.2⟩
    · rw [if_neg hkw] at hb
      exact absurd hb (by simp)
  · rintro ⟨m, hm, hname, hbound, hus, hexcl, hown, hbase⟩
    refine ⟨m, ?_, ?_⟩
    · rw [List.mem_filter]
      refine ⟨hm, ?_⟩
      unfold keywordLoopBody is_obj_keyword_by_name in_s2l_base
      rw [hbound, hus, hexcl, hown, hbase]
      simp
    · rw [hname]
      exact List.mem_singleton.mpr rfl

/-- The last dot-separated component of a library name, embedding
`name.split(".")[-1:][0]` from `run_keyword`. -/
def lastComponent (s : String) : String :=
  match (s.splitOn (".")).getLast? with
  | Option.some x => x
  | Option.none => s

/-- A page object as seen by `run_keyword`: its display name, its attribute
lookup (`getattr`) returning the bound method for a resolved method name, the
behavior of `capture_page_screenshot` on the current browser state, and the
names of the currently imported libraries from `Context.get_libraries()`
(context.py is not under src/; the libraries are abstracted as their names). -/
structure PageRuntime where
  name : String
  methods : String → Option (List PyVal → Except String PyVal)
  captureScreenshot : Except String PyVal
  libraries : List String

/-- Embeds `Page.run_keyword` (page.py lines 195-248): the alias is translated
back to a method name and the method invoked with the positional args.  If the
method raises, `capture_page_screenshot` is attempted inside a `try/except`
whose handler does nothing but fall through, so any screenshot failure is
discarded and the original exception is re-raised unchanged.  If the method
returns a page object, the current-page pointer of Context is set for each imported
library whose last name component equals the class name of the returned instance
(the last match wins); the second component of the result is that pointer
update (`Option.none` when unchanged). -/
def run_keyword (po : PageRuntime) (kwAlias : String) (args : List PyVal) :
    Except String PyVal × Option String :=
  match po.methods (get_funcname_from_robot_alias kwAlias (_underscore po.name)) with
  | Option.none => (Except.error ("AttributeError"), Option.none)
  | Option.some meth =>
    match meth args with
    | Except.error err =>
      match po.captureScreenshot with
      | Except.ok _ => (Except.error err, Option.none)
      | Except.error _ => (Except.error err, Option.none)
    | Except.ok ret =>
      match ret with
      | PyVal.page classname =>
        (Except.ok ret,
          (po.libraries.filter (fun nm => lastComponent nm == classname)).getLast?)
      | _ => (Except.ok ret, Option.none)

/-- C3: whenever the method resolved from a keyword alias raises, `run_keyword`
re-raises that original exception unchanged, for every possible outcome of the
best-effort `capture_page_screenshot` call - in particular a failure raised by
the screenshot capture itself is swallowed and never replaces the original
exception. -/
theorem run_keyword_reraises_original (nm : String)
    (methods : String → Option (List PyVal → Except String PyVal))
    (scr : Except String PyVal) (libs : List String)
    (kwAlias : String) (args : List PyVal)
    (meth : List PyVal → Except String PyVal) (err : String)
    (hmeth : methods (get_funcname_from_robot_alias kwAlias (_underscore nm)) =
      Option.some meth)
    (herr : meth args = Except.error err) :
    (run_keyword (PageRuntime.mk nm methods scr libs) kwAlias args).1 =
      Except.error err := by
  unfold run_keyword
  simp only [hmeth, herr]
  cases scr
  case error => rfl
  case ok => rfl

theorem run_keyword_reraises_original_witness :
    (run_keyword
        (PageRuntime.mk "My Page"
          (fun _ => Option.some (fun _ => Except.error ("element not found")))
          (Except.error ("No browser is open")) [])
        "click_button_My_Page" []).1 =
      Except.error ("element not found") :=
  run_keyword_reraises_original "My Page"
    (fun _ => Option.some (fun _ => Except.error ("element not found")))
    (Except.error ("No browser is open")) [] "click_button_My_Page" []
    (fun _ => Except.error ("element not found")) "element not found" rfl rfl
